import Mathlib

/-!
Verification of the asynchronous transcription job manager
(`app/services/transcription_service.py` and the cancel endpoint of
`app/routers/whisper.py`) against its natural-language specification.

The Python service is embedded shallowly:
* the job record (`TranscriptionJob`) and status enum are translated field
  by field; `Optional[float]` timestamps become `Option Rat`;
* the job store (a dict guarded by one lock) becomes an association list,
  every store operation being one atomic function;
* the background runner `_run_transcription` becomes a function producing
  the list of successive job-record snapshots (one per `with self._lock`
  mutation block), so that "at every point of every execution" claims
  quantify over the elements of that trace;
* the backend (model load, `whisper_model.transcribe`) and the concurrent
  cancellation flag are environment parameters: `loadResult` and
  `transcribeResult` are the outcomes of the two calls that may raise, and
  `cancelAt1/2/3` are the values the runner reads from `job.cancelled` at
  its three cancellation checkpoints (lines 202, 216 and 230 of the
  source).
-/

/-- `JobStatus` enum of the source. -/
inductive JobStatus where
  | pending
  | processing
  | completed
  | failed
  | cancelled
deriving DecidableEq, Repr

/-- The `TranscriptionJob` dataclass. `text`, `language`, `error` default to
`None`; `progress` to 0; `duration_seconds` to 0.0; `cancelled` to False.
Timestamps and durations are modelled as rationals. -/
structure TranscriptionJob where
  job_id : String
  status : JobStatus := .pending
  progress : Nat := 0
  message : String := ""
  text : Option String := none
  language : Option String := none
  duration_seconds : Rat := 0
  created_at : Rat := 0
  completed_at : Option Rat := none
  error : Option String := none
  cancelled : Bool := false
deriving DecidableEq, Repr

instance : Inhabited TranscriptionJob := ⟨{ job_id := "" }⟩

/-- One segment of a whisper result; the source reads
`segments[-1].get("end", 0)`, so the `end` key may be absent. -/
structure Segment where
  start : Option Rat := none
  seg_end : Option Rat := none
deriving DecidableEq, Repr

/-- The dictionary returned by `whisper_model.transcribe`: the source reads
it with `result.get("text", "")`, `result.get("language", language)` and
`result.get("segments", [])`, so each key may be absent. -/
structure WhisperResult where
  text : Option String := none
  language : Option String := none
  segments : Option (List Segment) := none
deriving DecidableEq, Repr

/-- Environment of one execution of `_run_transcription`: the values the
runner observes from the outside world.  `cancelAt1`, `cancelAt2`,
`cancelAt3` are the values of `job.cancelled` at the three checkpoints
(the flag is written concurrently by `cancel_job`); `loadResult` is the
outcome of `self._load_model(model)` and `transcribeResult` the outcome of
`whisper_model.transcribe(...)`, each either returning or raising an
exception whose `str(e)` is the carried string. -/
structure RunEnv where
  cancelAt1 : Bool
  cancelAt2 : Bool
  cancelAt3 : Bool
  loadResult : Except String Unit
  transcribeResult : Except String WhisperResult
deriving Repr

/-- The record created by `start_transcription`:
`TranscriptionJob(job_id=job_id, status=PENDING, message="Queued for transcription")`,
all other fields at their dataclass defaults (`created_at = time.time()`). -/
def initialJob (id : String) (now : Rat) : TranscriptionJob :=
  { job_id := id
    status := .pending
    message := "Queued for transcription"
    created_at := now }

/-- The mutation of the source lines 196-199: status PROCESSING,
message "Loading model...", progress 5. -/
def processingState (j : TranscriptionJob) : TranscriptionJob :=
  { j with status := .processing, message := "Loading model...", progress := 5 }

/-- The mutation at each cancellation checkpoint (source lines 203-205,
217-219, 231-233): status CANCELLED, message "Cancelled by user";
`completed_at` is not written. -/
def cancelledState (j : TranscriptionJob) : TranscriptionJob :=
  { j with status := .cancelled, message := "Cancelled by user" }

/-- The mutation of lines 211-213: message "Transcribing audio...",
progress 10. -/
def transcribingState (j : TranscriptionJob) : TranscriptionJob :=
  { j with message := "Transcribing audio...", progress := 10 }

/-- The `except Exception` handler (lines 249-254): status FAILED,
`error = str(e)`, message `f"Transcription failed: {e}"`,
`completed_at = time.time()`. -/
def failedState (j : TranscriptionJob) (e : String) (now : Rat) : TranscriptionJob :=
  { j with status := .failed
           error := some e
           message := "Transcription failed: " ++ e
           completed_at := some now }

/-- The success mutation (lines 237-247): status COMPLETED, progress 100,
message "Transcription complete", `text = result.get("text", "").strip()`,
`language = result.get("language", language)`; `duration_seconds` is
overwritten with `segments[-1].get("end", 0)` only when
`result.get("segments", [])` is non-empty; `completed_at = time.time()`. -/
def completedState (j : TranscriptionJob) (hint : Option String)
    (res : WhisperResult) (now : Rat) : TranscriptionJob :=
  { j with status := .completed
           progress := 100
           message := "Transcription complete"
           text := some ((res.text.getD "").trim)
           language := (match res.language with
             | some l => some l
             | none => hint)
           duration_seconds := (match (res.segments.getD []).getLast? with
             | some sg => sg.seg_end.getD 0
             | none => j.duration_seconds)
           completed_at := some now }

/-- Snapshots of the job record after each `with self._lock` mutation in
the body of the `try` of `_run_transcription`, starting from the record the
worker found (`hint` is the caller-supplied `language` argument, `now` the
value of `time.time()` at the terminal transition). -/
def runStates (env : RunEnv) (hint : Option String) (now : Rat)
    (j0 : TranscriptionJob) : List TranscriptionJob :=
  let j1 := processingState j0
  if env.cancelAt1 then
    [j1, cancelledState j1]
  else
    match env.loadResult with
    | .error e => [j1, failedState j1 e now]
    | .ok _ =>
      let j2 := transcribingState j1
      if env.cancelAt2 then
        [j1, j2, cancelledState j2]
      else
        match env.transcribeResult with
        | .error e => [j1, j2, failedState j2 e now]
        | .ok res =>
          if env.cancelAt3 then
            [j1, j2, cancelledState j2]
          else
            [j1, j2, completedState j2 hint res now]

/-- The full sequence of job-record states an observer can read during one
execution of `_run_transcription` on a job the worker found in the store:
the state at dequeue followed by the state after each mutation. -/
def jobTrace (env : RunEnv) (hint : Option String) (now : Rat)
    (j0 : TranscriptionJob) : List TranscriptionJob :=
  j0 :: runStates env hint now j0

/-- Terminal statuses per the state machine: COMPLETED, FAILED, CANCELLED. -/
def isTerminal (st : JobStatus) : Bool :=
  match st with
  | .completed => true
  | .failed => true
  | .cancelled => true
  | _ => false

/-- The job store `self._jobs : dict[str, TranscriptionJob]`. -/
abbrev JobStore := List (String × TranscriptionJob)

/-- `self._jobs.get(job_id)`. -/
def get_job (s : JobStore) (id : String) : Option TranscriptionJob :=
  (s.find? (fun p => p.1 == id)).map Prod.snd

/-- A python dict never holds two entries with the same key. -/
abbrev nodupKeys (s : JobStore) : Prop :=
  (s.map Prod.fst).Nodup

/-- The reaper condition of `_cleanup_old_jobs` (line 296):
`job.completed_at and (current_time - job.completed_at) > self._job_ttl`.
Python truthiness makes a `0.0` timestamp count as unset. -/
def isExpired (now ttl : Rat) (j : TranscriptionJob) : Bool :=
  match j.completed_at with
  | none => false
  | some t => t != 0 && decide (now - t > ttl)

/-- `_cleanup_old_jobs`: collect the expired ids, then delete each. -/
def cleanup_old_jobs (now ttl : Rat) (s : JobStore) : JobStore :=
  s.filter (fun p => ! isExpired now ttl p.2)

/-- The store effect of `start_transcription` (lines 165-175): insert a
fresh PENDING record, then run the reaper sweep. -/
def start_transcription_store (s : JobStore) (job_id : String)
    (now ttl : Rat) : JobStore :=
  cleanup_old_jobs now ttl ((job_id, initialJob job_id now) :: s)

/-- In-place mutation `job.cancelled = True` of the record stored under
`id` (python mutates the shared object; on the association list this is a
key-preserving map). -/
def setCancelled (s : JobStore) (id : String) : JobStore :=
  s.map (fun p => if p.1 == id then (p.1, { p.2 with cancelled := true }) else p)

/-- `TranscriptionService.cancel_job` (lines 269-280): under the lock,
look the job up; on PENDING or PROCESSING set `cancelled = True` and
return True, otherwise return False. -/
def cancel_job (s : JobStore) (id : String) : JobStore × Bool :=
  match get_job s id with
  | none => (s, false)
  | some j =>
    if j.status = .pending ∨ j.status = .processing then
      (setCancelled s id, true)
    else
      (s, false)

/-- `TranscriptionService.delete_job` (lines 282-288): remove the record
if present, report whether it existed. -/
def delete_job (s : JobStore) (id : String) : JobStore × Bool :=
  if (s.find? (fun p => p.1 == id)).isSome then
    (s.filter (fun p => p.1 != id), true)
  else
    (s, false)

/-- The three possible responses of the DELETE job endpoint. -/
inductive CancelResponse where
  | notFound
  | cancelRequested
  | deleted
deriving DecidableEq, Repr

/-- The router endpoint `cancel_job` of `whisper.py` (lines 170-183):
404 on unknown id; on PENDING/PROCESSING call the service `cancel_job`
and answer `{"cancelled": True}`; otherwise call `delete_job` and answer
`{"deleted": True}`. -/
def routerCancel (s : JobStore) (id : String) : JobStore × CancelResponse :=
  match get_job s id with
  | none => (s, .notFound)
  | some j =>
    if j.status = .pending ∨ j.status = .processing then
      ((cancel_job s id).1, .cancelRequested)
    else
      ((delete_job s id).1, .deleted)

/-- The filesystem as the runner sees it: the temporary directory returned
by `tempfile.gettempdir()` and the set of existing files. -/
structure FS where
  tempDir : String
  files : List String
deriving DecidableEq, Repr

/-- The `finally` block of `_run_transcription` (lines 256-262): if
`file_path` starts with the temp directory and exists, call `os.remove`
(whose `OSError`, modelled by `removeFails`, is swallowed).  Returns the
resulting filesystem and the number of `os.remove` calls made. -/
def cleanupTempFile (fs : FS) (path : String) (removeFails : Bool) : FS × Nat :=
  if fs.tempDir.data.isPrefixOf path.data && fs.files.contains path then
    if removeFails then (fs, 1) else ({ fs with files := fs.files.erase path }, 1)
  else
    (fs, 0)

/-- Everything one call of `_run_transcription` produces: the job-record
snapshots an observer can read, the filesystem afterwards, and how many
times `os.remove` was called. -/
structure RunOutcome where
  trace : List TranscriptionJob
  fs : FS
  removeAttempts : Nat
deriving Repr

/-- `_run_transcription` in full (lines 182-262): fetch the record with
`self._jobs.get(job_id)`; when absent, return at line 192 — before the
`try`, so the temp-file cleanup never runs.  Otherwise run the body (the
`try` trace) and then the `finally` cleanup, which runs on every path
through the `try`, returns and exception handler included. -/
def run_transcription (s : JobStore) (job_id : String) (file_path : String)
    (env : RunEnv) (hint : Option String) (now : Rat) (fs : FS)
    (removeFails : Bool) : RunOutcome :=
  match get_job s job_id with
  | none => ⟨[], fs, 0⟩
  | some job0 =>
    let tr := jobTrace env hint now job0
    let cl := cleanupTempFile fs file_path removeFails
    ⟨tr, cl.1, cl.2⟩

/-- Lookup in a duplicate-free association list after a `filter`: the
looked-up entry survives exactly when the predicate keeps it. -/
theorem get_job_filter (s : JobStore) (id : String) (j : TranscriptionJob)
    (q : String × TranscriptionJob → Bool) (hn : nodupKeys s)
    (h : get_job s id = some j) :
    get_job (s.filter q) id = if q (id, j) then some j else none := by
  induction s with
  | nil => simp [get_job] at h
  | cons p t ih =>
    obtain ⟨k, a⟩ := p
    have hn2 : nodupKeys t := by
      simpa [nodupKeys] using (List.nodup_cons.mp hn).2
    by_cases hk : k = id
    · subst hk
      have ha : a = j := by
        simpa [get_job] using h
      subst ha
      have hnot : ∀ x ∈ t, ¬ (x.1 == k) = true := by
        intro x hx hbeq
        have hxk : x.1 = k := by simpa using hbeq
        have : k ∈ t.map Prod.fst := hxk ▸ List.mem_map_of_mem Prod.fst hx
        exact (List.nodup_cons.mp (by simpa [nodupKeys] using hn)).1 this
      by_cases hq : q (k, a) = true
      · simp [List.filter_cons, hq, get_job]
      · have hq2 : q (k, a) = false := by simpa using hq
        have hnone : (t.filter q).find? (fun p => p.1 == k) = none := by
          rw [List.find?_eq_none]
          intro x hx
          exact hnot x (List.mem_of_mem_filter hx)
        simp [List.filter_cons, hq2, get_job, hnone]
    · have hkb : (k == id) = false := by simpa using hk
      have ht : get_job t id = some j := by
        simpa [get_job, hkb] using h
      by_cases hq : q (k, a) = true
      · simpa [List.filter_cons, hq, get_job, hkb] using ih hn2 ht
      · have hq2 : q (k, a) = false := by simpa using hq
        simpa [List.filter_cons, hq2, get_job] using ih hn2 ht

/-- Looking up `id` after the in-place `cancelled = True` mutation yields
the stored record with that one field flipped. -/
theorem get_job_setCancelled (s : JobStore) (id : String) :
    get_job (setCancelled s id) id
      = (get_job s id).map (fun j => { j with cancelled := true }) := by
  induction s with
  | nil => rfl
  | cons p t ih =>
    obtain ⟨k, a⟩ := p
    by_cases hk : k = id
    · subst hk
      simp [get_job, setCancelled]
    · have hkb : (k == id) = false := by simpa using hk
      have hstep : setCancelled ((k, a) :: t) id = (k, a) :: setCancelled t id := by
        simp [setCancelled, hk]
      have h1 : get_job ((k, a) :: setCancelled t id) id
          = get_job (setCancelled t id) id := by
        simp [get_job, hkb]
      have h2 : get_job ((k, a) :: t) id = get_job t id := by
        simp [get_job, hkb]
      rw [hstep, h1, h2, ih]

/-- After removing every entry keyed `id`, looking `id` up fails. -/
theorem get_job_erase (s : JobStore) (id : String) :
    get_job (s.filter (fun p => p.1 != id)) id = none := by
  have : (s.filter (fun p => p.1 != id)).find? (fun p => p.1 == id) = none := by
    rw [List.find?_eq_none]
    intro x hx
    have := (List.mem_filter.mp hx).2
    simpa using this
  simp [get_job, this]

/-- The job record once `_run_transcription` has finished, i.e. the last
snapshot of the trace. -/
def finalState (env : RunEnv) (hint : Option String) (now : Rat)
    (j0 : TranscriptionJob) : TranscriptionJob :=
  (jobTrace env hint now j0).getLastD j0

/-- The final snapshot of a run is one of its observable snapshots. -/
theorem finalState_mem (env : RunEnv) (hint : Option String) (now : Rat)
    (j0 : TranscriptionJob) :
    finalState env hint now j0 ∈ jobTrace env hint now j0 := by
  rcases env with ⟨c1, c2, c3, lr, tr⟩
  cases c1 <;> cases c2 <;> cases c3 <;> cases lr <;> cases tr <;>
    simp [finalState, jobTrace, runStates, List.getLastD]

/-- C9: in every execution of the runner on a freshly created job, every
observable snapshot has `text` set exactly when the status is COMPLETED and
`error` set exactly when the status is FAILED. -/
theorem c9_result_error_iff (env : RunEnv) (hint : Option String)
    (now t0 : Rat) (id : String) :
    ∀ jb ∈ jobTrace env hint now (initialJob id t0),
      (jb.text.isSome ↔ jb.status = JobStatus.completed) ∧
      (jb.error.isSome ↔ jb.status = JobStatus.failed) := by
  rcases env with ⟨c1, c2, c3, lr, tr⟩
  cases c1 <;> cases c2 <;> cases c3 <;> cases lr <;> cases tr <;>
    simp [jobTrace, runStates, initialJob, processingState, transcribingState,
          cancelledState, failedState, completedState]

/-- C9 witness: the invariant instantiated at the final snapshot of a
concrete failing run. -/
theorem c9_result_error_iff_witness :
    ((finalState ⟨false, false, false, .ok (), .error "x"⟩ none 4
        (initialJob "j" 0)).text.isSome ↔
      (finalState ⟨false, false, false, .ok (), .error "x"⟩ none 4
        (initialJob "j" 0)).status = JobStatus.completed) ∧
    ((finalState ⟨false, false, false, .ok (), .error "x"⟩ none 4
        (initialJob "j" 0)).error.isSome ↔
      (finalState ⟨false, false, false, .ok (), .error "x"⟩ none 4
        (initialJob "j" 0)).status = JobStatus.failed) :=
  c9_result_error_iff ⟨false, false, false, .ok (), .error "x"⟩ none 4 0 "j"
    (finalState ⟨false, false, false, .ok (), .error "x"⟩ none 4 (initialJob "j" 0))
    (finalState_mem ⟨false, false, false, .ok (), .error "x"⟩ none 4 (initialJob "j" 0))

/-- C10: in every execution of the runner on a freshly created job,
`progress` stays within 0..100, never decreases from one snapshot to the
next, and equals 100 only in the COMPLETED state. -/
theorem c10_progress (env : RunEnv) (hint : Option String)
    (now t0 : Rat) (id : String) :
    (∀ jb ∈ jobTrace env hint now (initialJob id t0),
        jb.progress ≤ 100 ∧ (jb.progress = 100 → jb.status = JobStatus.completed)) ∧
    List.Chain' (fun a b => a.progress ≤ b.progress)
      (jobTrace env hint now (initialJob id t0)) := by
  rcases env with ⟨c1, c2, c3, lr, tr⟩
  cases c1 <;> cases c2 <;> cases c3 <;> cases lr <;> cases tr <;>
    simp [jobTrace, runStates, initialJob, processingState, transcribingState,
          cancelledState, failedState, completedState]

/-- C10 witness: the progress invariant instantiated at the final snapshot
of a concrete run cancelled at the last checkpoint. -/
theorem c10_progress_witness :
    ((finalState ⟨false, false, true, .ok (), .ok {}⟩ none 0
        (initialJob "j" 0)).progress ≤ 100 ∧
      ((finalState ⟨false, false, true, .ok (), .ok {}⟩ none 0
          (initialJob "j" 0)).progress = 100 →
        (finalState ⟨false, false, true, .ok (), .ok {}⟩ none 0
          (initialJob "j" 0)).status = JobStatus.completed)) ∧
    List.Chain' (fun a b => a.progress ≤ b.progress)
      (jobTrace ⟨false, false, true, .ok (), .ok {}⟩ none 0 (initialJob "j" 0)) :=
  ⟨(c10_progress ⟨false, false, true, .ok (), .ok {}⟩ none 0 0 "j").1
      (finalState ⟨false, false, true, .ok (), .ok {}⟩ none 0 (initialJob "j" 0))
      (finalState_mem ⟨false, false, true, .ok (), .ok {}⟩ none 0 (initialJob "j" 0)),
   (c10_progress ⟨false, false, true, .ok (), .ok {}⟩ none 0 0 "j").2⟩

/-- An execution in which the client requested cancellation before the
worker dequeued the job: `job.cancelled` is already true at the first
checkpoint (and thus at all later ones). -/
def envCancelEarly : RunEnv :=
  { cancelAt1 := true
    cancelAt2 := true
    cancelAt3 := true
    loadResult := .ok ()
    transcribeResult := .ok {} }

/-- C1 counterexample: with cancellation already requested at dequeue, the
runner still publishes a snapshot with status PROCESSING and progress 5
(the mutation of source lines 196-199 precedes the first cancellation
check of line 202), before ending CANCELLED. -/
theorem c1_counterexample :
    ((jobTrace envCancelEarly none 0 (initialJob "j" 0)).getD 1 default).status
        = JobStatus.processing ∧
    ((jobTrace envCancelEarly none 0 (initialJob "j" 0)).getD 1 default).progress = 5 ∧
    ((jobTrace envCancelEarly none 0 (initialJob "j" 0)).getLastD default).status
        = JobStatus.cancelled := by
  refine ⟨rfl, rfl, rfl⟩

/-- C1 (amended): when `cancel_requested` is already true at the first
checkpoint, the runner first moves the job to PROCESSING with progress 5
and message "Loading model...", then transitions it to CANCELLED with
message "Cancelled by user" and stops, recording no result, no error and
no completion timestamp. -/
theorem c1_cancel_at_dequeue (env : RunEnv) (hint : Option String)
    (now t0 : Rat) (id : String) (h1 : env.cancelAt1 = true) :
    (jobTrace env hint now (initialJob id t0)).length = 3 ∧
    ((jobTrace env hint now (initialJob id t0)).getD 1 default).status
        = JobStatus.processing ∧
    ((jobTrace env hint now (initialJob id t0)).getD 1 default).progress = 5 ∧
    ((jobTrace env hint now (initialJob id t0)).getD 1 default).message
        = "Loading model..." ∧
    (finalState env hint now (initialJob id t0)).status = JobStatus.cancelled ∧
    (finalState env hint now (initialJob id t0)).message = "Cancelled by user" ∧
    (finalState env hint now (initialJob id t0)).progress = 5 ∧
    (finalState env hint now (initialJob id t0)).text = none ∧
    (finalState env hint now (initialJob id t0)).error = none ∧
    (finalState env hint now (initialJob id t0)).completed_at = none := by
  rcases env with ⟨c1, c2, c3, lr, tr⟩
  cases h1
  simp [finalState, jobTrace, runStates, initialJob, processingState, cancelledState]

/-- C1 witness: the amended behaviour at a concrete early-cancelled run. -/
theorem c1_cancel_at_dequeue_witness :
    (jobTrace envCancelEarly none 0 (initialJob "j" 0)).length = 3 ∧
    ((jobTrace envCancelEarly none 0 (initialJob "j" 0)).getD 1 default).status
        = JobStatus.processing ∧
    ((jobTrace envCancelEarly none 0 (initialJob "j" 0)).getD 1 default).progress = 5 ∧
    ((jobTrace envCancelEarly none 0 (initialJob "j" 0)).getD 1 default).message
        = "Loading model..." ∧
    (finalState envCancelEarly none 0 (initialJob "j" 0)).status = JobStatus.cancelled ∧
    (finalState envCancelEarly none 0 (initialJob "j" 0)).message = "Cancelled by user" ∧
    (finalState envCancelEarly none 0 (initialJob "j" 0)).progress = 5 ∧
    (finalState envCancelEarly none 0 (initialJob "j" 0)).text = none ∧
    (finalState envCancelEarly none 0 (initialJob "j" 0)).error = none ∧
    (finalState envCancelEarly none 0 (initialJob "j" 0)).completed_at = none :=
  c1_cancel_at_dequeue envCancelEarly none 0 0 "j" rfl

/-- C2 counterexample: a job cancelled at the first checkpoint ends in the
terminal CANCELLED state with `completed_at` still unset, refuting
"`completed_at` is set if and only if the status is terminal". -/
theorem c2_counterexample :
    isTerminal ((jobTrace envCancelEarly none 0 (initialJob "j" 0)).getLastD default).status
        = true ∧
    ((jobTrace envCancelEarly none 0 (initialJob "j" 0)).getLastD default).completed_at
        = none := by
  refine ⟨rfl, rfl⟩

/-- C2 (amended): in every execution of the runner on a freshly created
job, `completed_at` is set exactly when the status is COMPLETED or FAILED
(never on CANCELLED), and once set it is never overwritten in any later
snapshot. -/
theorem c2_completed_at (env : RunEnv) (hint : Option String)
    (now t0 : Rat) (id : String) :
    (∀ jb ∈ jobTrace env hint now (initialJob id t0),
        (jb.completed_at.isSome ↔
          (jb.status = JobStatus.completed ∨ jb.status = JobStatus.failed))) ∧
    List.Chain' (fun a b => ∀ t, a.completed_at = some t → b.completed_at = some t)
      (jobTrace env hint now (initialJob id t0)) := by
  rcases env with ⟨c1, c2, c3, lr, tr⟩
  cases c1 <;> cases c2 <;> cases c3 <;> cases lr <;> cases tr <;>
    simp [jobTrace, runStates, initialJob, processingState, transcribingState,
          cancelledState, failedState, completedState]

/-- C2 witness: the amended invariant instantiated at the final snapshot
of a concrete run whose model load fails. -/
theorem c2_completed_at_witness :
    ((finalState ⟨false, false, false, .error "x", .ok {}⟩ none 9
        (initialJob "j" 0)).completed_at.isSome ↔
      ((finalState ⟨false, false, false, .error "x", .ok {}⟩ none 9
          (initialJob "j" 0)).status = JobStatus.completed ∨
        (finalState ⟨false, false, false, .error "x", .ok {}⟩ none 9
          (initialJob "j" 0)).status = JobStatus.failed)) ∧
    List.Chain' (fun a b => ∀ t, a.completed_at = some t → b.completed_at = some t)
      (jobTrace ⟨false, false, false, .error "x", .ok {}⟩ none 9 (initialJob "j" 0)) :=
  ⟨(c2_completed_at ⟨false, false, false, .error "x", .ok {}⟩ none 9 0 "j").1
      (finalState ⟨false, false, false, .error "x", .ok {}⟩ none 9 (initialJob "j" 0))
      (finalState_mem ⟨false, false, false, .error "x", .ok {}⟩ none 9 (initialJob "j" 0)),
   (c2_completed_at ⟨false, false, false, .error "x", .ok {}⟩ none 9 0 "j").2⟩

/-- C4: when the runner sees no cancellation at any checkpoint, the model
loads, and the backend call returns `res`, the job ends COMPLETED with
progress 100, text equal to the backend text stripped of surrounding
whitespace, language equal to the detected language or else the caller
hint, duration equal to the `end` of the last segment (0 when the segment
list is empty or absent), and `completed_at` set. -/
theorem c4_success (env : RunEnv) (hint : Option String) (now t0 : Rat)
    (id : String) (res : WhisperResult)
    (h1 : env.cancelAt1 = false) (h2 : env.cancelAt2 = false)
    (h3 : env.cancelAt3 = false) (hl : env.loadResult = .ok ())
    (ht : env.transcribeResult = .ok res) :
    (finalState env hint now (initialJob id t0)).status = JobStatus.completed ∧
    (finalState env hint now (initialJob id t0)).progress = 100 ∧
    (finalState env hint now (initialJob id t0)).message = "Transcription complete" ∧
    (finalState env hint now (initialJob id t0)).text = some ((res.text.getD "").trim) ∧
    (finalState env hint now (initialJob id t0)).language
        = (match res.language with
           | some l => some l
           | none => hint) ∧
    (finalState env hint now (initialJob id t0)).duration_seconds
        = (match (res.segments.getD []).getLast? with
           | some sg => sg.seg_end.getD 0
           | none => 0) ∧
    (finalState env hint now (initialJob id t0)).completed_at = some now := by
  rcases env with ⟨c1, c2, c3, lr, tr⟩
  cases h1; cases h2; cases h3; cases hl; cases ht
  simp [finalState, jobTrace, runStates, initialJob, processingState,
        transcribingState, completedState]

/-- The backend answer of the spec scenario:
text "hello world", language "en", one segment ending at 1.5. -/
def resHello : WhisperResult :=
  { text := some "hello world"
    language := some "en"
    segments := some [{ start := some 0, seg_end := some (3/2) }] }

/-- C4 witness: the spec scenario — model "tiny", language hint "en",
backend text "hello world" with one segment ending at 1.5 — ends COMPLETED
with text "hello world", language "en" and duration 1.5. -/
theorem c4_success_witness :
    (finalState ⟨false, false, false, .ok (), .ok resHello⟩ (some "en") 8
        (initialJob "j" 0)).status = JobStatus.completed ∧
    (finalState ⟨false, false, false, .ok (), .ok resHello⟩ (some "en") 8
        (initialJob "j" 0)).progress = 100 ∧
    (finalState ⟨false, false, false, .ok (), .ok resHello⟩ (some "en") 8
        (initialJob "j" 0)).message = "Transcription complete" ∧
    (finalState ⟨false, false, false, .ok (), .ok resHello⟩ (some "en") 8
        (initialJob "j" 0)).text = some ("hello world".trim) ∧
    (finalState ⟨false, false, false, .ok (), .ok resHello⟩ (some "en") 8
        (initialJob "j" 0)).language = some "en" ∧
    (finalState ⟨false, false, false, .ok (), .ok resHello⟩ (some "en") 8
        (initialJob "j" 0)).duration_seconds = 3/2 ∧
    (finalState ⟨false, false, false, .ok (), .ok resHello⟩ (some "en") 8
        (initialJob "j" 0)).completed_at = some 8 := by
  obtain ⟨hs, hp, hm, htx, hl, hd, hc⟩ :=
    c4_success ⟨false, false, false, .ok (), .ok resHello⟩ (some "en") 8 0 "j"
      resHello rfl rfl rfl rfl rfl
  refine ⟨hs, hp, hm, ?_, ?_, ?_, hc⟩
  · rw [htx]; simp [resHello]
  · rw [hl]; simp [resHello]
  · rw [hd]; simp [resHello]

/-- An execution whose backend call raises an exception with an empty
message (for example `RuntimeError()`), so `str(e)` is `""`. -/
def envEmptyError : RunEnv :=
  { cancelAt1 := false
    cancelAt2 := false
    cancelAt3 := false
    loadResult := .ok ()
    transcribeResult := .error "" }

/-- C5 counterexample: when the backend raises an exception whose message
is empty, the job ends FAILED but its `error` field is the empty string —
set, yet not non-empty as the claim requires. -/
theorem c5_counterexample :
    (finalState envEmptyError none 0 (initialJob "j" 0)).status = JobStatus.failed ∧
    (finalState envEmptyError none 0 (initialJob "j" 0)).error = some "" := by
  refine ⟨rfl, rfl⟩

/-- C5 (amended): whenever the model load or the backend call raises, the
job ends FAILED with `error` set to the exception text — possibly the
empty string when the exception message is empty — the result text absent,
and `completed_at` set; the exception is absorbed into the job record and
the runner terminates normally. -/
theorem c5_failure (env : RunEnv) (hint : Option String) (now t0 : Rat)
    (id : String) (e : String) (h1 : env.cancelAt1 = false)
    (h : env.loadResult = .error e ∨
         (env.loadResult = .ok () ∧ env.cancelAt2 = false ∧
          env.transcribeResult = .error e)) :
    (finalState env hint now (initialJob id t0)).status = JobStatus.failed ∧
    (finalState env hint now (initialJob id t0)).error = some e ∧
    (finalState env hint now (initialJob id t0)).text = none ∧
    (finalState env hint now (initialJob id t0)).message
        = "Transcription failed: " ++ e ∧
    (finalState env hint now (initialJob id t0)).completed_at = some now := by
  rcases env with ⟨c1, c2, c3, lr, tr⟩
  cases h1
  rcases h with hload | ⟨hok, h2, htr⟩
  · cases hload
    simp [finalState, jobTrace, runStates, initialJob, processingState, failedState]
  · cases hok; cases h2; cases htr
    simp [finalState, jobTrace, runStates, initialJob, processingState,
          transcribingState, failedState]

/-- C5 witness: a backend failure with message "disk full" ends FAILED with
that message captured. -/
theorem c5_failure_witness :
    (finalState ⟨false, false, false, .ok (), .error "disk full"⟩ none 4
        (initialJob "j" 0)).status = JobStatus.failed ∧
    (finalState ⟨false, false, false, .ok (), .error "disk full"⟩ none 4
        (initialJob "j" 0)).error = some "disk full" ∧
    (finalState ⟨false, false, false, .ok (), .error "disk full"⟩ none 4
        (initialJob "j" 0)).text = none ∧
    (finalState ⟨false, false, false, .ok (), .error "disk full"⟩ none 4
        (initialJob "j" 0)).message = "Transcription failed: " ++ "disk full" ∧
    (finalState ⟨false, false, false, .ok (), .error "disk full"⟩ none 4
        (initialJob "j" 0)).completed_at = some 4 :=
  c5_failure ⟨false, false, false, .ok (), .error "disk full"⟩ none 4 0 "j"
    "disk full" rfl (Or.inr ⟨rfl, rfl, rfl⟩)

/-- C3: a snapshot whose status is CANCELLED never has `completed_at` set,
so neither a bare reaper sweep nor the sweep triggered by a new
`start_transcription` removes a CANCELLED record: it stays in the store
whatever the current time and TTL. -/
theorem c3_cancelled_survives (env : RunEnv) (hint : Option String)
    (now t0 : Rat) (id : String) (s : JobStore) (jid : String)
    (j : TranscriptionJob) (ttl nowR : Rat) :
    (∀ jb ∈ jobTrace env hint now (initialJob id t0),
        jb.status = JobStatus.cancelled → jb.completed_at = none) ∧
    (nodupKeys s → get_job s jid = some j → j.completed_at = none →
        get_job (cleanup_old_jobs nowR ttl s) jid = some j) ∧
    (nodupKeys s → get_job s jid = some j → j.completed_at = none →
        ∀ newId, newId ∉ s.map Prod.fst → newId ≠ jid →
          get_job (start_transcription_store s newId nowR ttl) jid = some j) := by
  refine ⟨?_, ?_, ?_⟩
  · rcases env with ⟨c1, c2, c3, lr, tr⟩
    cases c1 <;> cases c2 <;> cases c3 <;> cases lr <;> cases tr <;>
      simp [jobTrace, runStates, initialJob, processingState, transcribingState,
            cancelledState, failedState, completedState]
  · intro hn hj hc
    have h2 := get_job_filter s jid j (fun p => ! isExpired nowR ttl p.2) hn hj
    simp only [cleanup_old_jobs]
    rw [h2]
    simp [isExpired, hc]
  · intro hn hj hc newId hfresh hne
    have hn2 : nodupKeys ((newId, initialJob newId nowR) :: s) := by
      simpa [nodupKeys, List.nodup_cons] using And.intro hfresh hn
    have hb : (newId == jid) = false := by simpa using hne
    have hj2 : get_job ((newId, initialJob newId nowR) :: s) jid = some j := by
      simpa [get_job, hb] using hj
    have h2 := get_job_filter ((newId, initialJob newId nowR) :: s) jid j
      (fun p => ! isExpired nowR ttl p.2) hn2 hj2
    simp only [start_transcription_store, cleanup_old_jobs]
    rw [h2]
    simp [isExpired, hc]

/-- A CANCELLED record as the runner leaves it, with no completion
timestamp. -/
def jCancelled : TranscriptionJob :=
  { job_id := "c"
    status := .cancelled
    progress := 5
    message := "Cancelled by user" }

/-- C3 witness: a CANCELLED record survives a reaper sweep and a new
`start_transcription` long past any TTL. -/
theorem c3_cancelled_survives_witness :
    get_job (cleanup_old_jobs 999999 3600 [("c", jCancelled)]) "c" = some jCancelled ∧
    get_job (start_transcription_store [("c", jCancelled)] "n" 999999 3600) "c"
      = some jCancelled :=
  ⟨(c3_cancelled_survives envCancelEarly none 0 0 "j" [("c", jCancelled)] "c"
      jCancelled 3600 999999).2.1 (by decide) (by decide) rfl,
   (c3_cancelled_survives envCancelEarly none 0 0 "j" [("c", jCancelled)] "c"
      jCancelled 3600 999999).2.2 (by decide) (by decide) rfl "n" (by decide) (by decide)⟩

/-- C6: the store resulting from any `start_transcription` keeps a
previously stored record exactly when its `completed_at` is unset or not
strictly older than the TTL; a record strictly older than the TTL is
deleted by the sweep. -/
theorem c6_reaper (s : JobStore) (newId jid : String) (j : TranscriptionJob)
    (now ttl : Rat) (hn : nodupKeys s) (hfresh : newId ∉ s.map Prod.fst)
    (hne : newId ≠ jid) (hj : get_job s jid = some j)
    (hpos : j.completed_at.all (fun t => t != 0) = true) :
    get_job (start_transcription_store s newId now ttl) jid
      = (match j.completed_at with
         | some t => if now - t > ttl then none else some j
         | none => some j) := by
  have hn2 : nodupKeys ((newId, initialJob newId now) :: s) := by
    simpa [nodupKeys, List.nodup_cons] using And.intro hfresh hn
  have hb : (newId == jid) = false := by simpa using hne
  have hj2 : get_job ((newId, initialJob newId now) :: s) jid = some j := by
    simpa [get_job, hb] using hj
  have h2 := get_job_filter ((newId, initialJob newId now) :: s) jid j
    (fun p => ! isExpired now ttl p.2) hn2 hj2
  simp only [start_transcription_store, cleanup_old_jobs]
  rw [h2]
  cases hca : j.completed_at with
  | none => simp [isExpired, hca]
  | some t =>
    have ht0 : (t != 0) = true := by simpa [hca] using hpos
    by_cases hgt : now - t > ttl
    · simp [isExpired, hca, ht0, hgt]
    · simp [isExpired, hca, ht0, hgt]

/-- A COMPLETED record whose completion timestamp is far in the past. -/
def jOld : TranscriptionJob :=
  { job_id := "old"
    status := .completed
    progress := 100
    message := "Transcription complete"
    text := some "x"
    completed_at := some 100 }

/-- A COMPLETED record whose completion timestamp is recent. -/
def jFresh : TranscriptionJob :=
  { job_id := "fresh"
    status := .completed
    progress := 100
    message := "Transcription complete"
    text := some "y"
    completed_at := some 4000 }

/-- C6 witness: at time 5000 with the default TTL of 3600 seconds, a
record completed at time 100 is swept away by the create-triggered reaper
while a record completed at time 4000 survives. -/
theorem c6_reaper_witness :
    get_job (start_transcription_store [("old", jOld), ("fresh", jFresh)] "n" 5000 3600)
        "old" = none ∧
    get_job (start_transcription_store [("old", jOld), ("fresh", jFresh)] "n" 5000 3600)
        "fresh" = some jFresh := by
  constructor
  · rw [c6_reaper [("old", jOld), ("fresh", jFresh)] "n" "old" jOld 5000 3600
        (by decide) (by decide) (by decide) (by decide) (by decide)]
    have hc : (3600 : Rat) < 5000 - 100 := by norm_num
    simp [jOld, hc]
  · rw [c6_reaper [("old", jOld), ("fresh", jFresh)] "n" "fresh" jFresh 5000 3600
        (by decide) (by decide) (by decide) (by decide) (by decide)]
    have hc : ¬ ((3600 : Rat) < 5000 - 4000) := by norm_num
    simp [jFresh, hc]

/-- C7: the cancel endpoint reports not-found and leaves the store intact
on an unknown id; on a PENDING or PROCESSING job it reports a
cancellation and only sets the record's `cancelled` flag, leaving the
status (and every other field) unchanged; on a terminal job it reports a
deletion, distinct from a cancellation, and removes the record. -/
theorem c7_cancel_endpoint (s : JobStore) (id : String)
    (j : TranscriptionJob) :
    (get_job s id = none → routerCancel s id = (s, CancelResponse.notFound)) ∧
    (get_job s id = some j →
      (j.status = JobStatus.pending ∨ j.status = JobStatus.processing) →
      (routerCancel s id).2 = CancelResponse.cancelRequested ∧
      get_job (routerCancel s id).1 id = some { j with cancelled := true }) ∧
    (get_job s id = some j →
      ¬ (j.status = JobStatus.pending ∨ j.status = JobStatus.processing) →
      (routerCancel s id).2 = CancelResponse.deleted ∧
      get_job (routerCancel s id).1 id = none) := by
  refine ⟨?_, ?_, ?_⟩
  · intro h
    simp [routerCancel, h]
  · intro h hst
    have hc : cancel_job s id = (setCancelled s id, true) := by
      simp [cancel_job, h, hst]
    constructor
    · simp [routerCancel, h, hst]
    · have : (routerCancel s id).1 = setCancelled s id := by
        simp [routerCancel, h, hst, hc]
      rw [this, get_job_setCancelled, h]
      rfl
  · intro h hst
    have hfind : (s.find? (fun p => p.1 == id)).isSome = true := by
      rcases hfound : s.find? (fun p => p.1 == id) with _ | p
      · simp [get_job, hfound] at h
      · simp [hfound]
    have hd : delete_job s id = (s.filter (fun p => p.1 != id), true) := by
      simp [delete_job, hfind]
    constructor
    · simp [routerCancel, h, hst]
    · have : (routerCancel s id).1 = s.filter (fun p => p.1 != id) := by
        simp [routerCancel, h, hst, hd]
      rw [this, get_job_erase]

/-- A PENDING record as `start_transcription` creates it. -/
def jPending : TranscriptionJob := initialJob "p" 3

/-- C7 witness: on a two-record store, cancelling a PENDING job flags it
in place, cancelling a COMPLETED job deletes it, and an unknown id leaves
the store untouched. -/
theorem c7_cancel_endpoint_witness :
    routerCancel [("p", jPending), ("old", jOld)] "x"
        = ([("p", jPending), ("old", jOld)], CancelResponse.notFound) ∧
    (routerCancel [("p", jPending), ("old", jOld)] "p").2
        = CancelResponse.cancelRequested ∧
    get_job (routerCancel [("p", jPending), ("old", jOld)] "p").1 "p"
        = some { jPending with cancelled := true } ∧
    (routerCancel [("p", jPending), ("old", jOld)] "old").2
        = CancelResponse.deleted ∧
    get_job (routerCancel [("p", jPending), ("old", jOld)] "old").1 "old" = none := by
  have h1 := (c7_cancel_endpoint [("p", jPending), ("old", jOld)] "x"
    jPending).1 (by decide)
  have h2 := (c7_cancel_endpoint [("p", jPending), ("old", jOld)] "p"
    jPending).2.1 (by decide) (Or.inl (by decide))
  have h3 := (c7_cancel_endpoint [("p", jPending), ("old", jOld)] "old"
    jOld).2.2 (by decide) (by decide)
  exact ⟨h1, h2.1, h2.2, h3.1, h3.2⟩

/-- A filesystem whose temp directory holds the job's input file. -/
def fsTemp : FS :=
  { tempDir := "/tmp/"
    files := ["/tmp/a.wav"] }

/-- A run in which nothing is cancelled and the backend succeeds. -/
def envPlain : RunEnv :=
  { cancelAt1 := false
    cancelAt2 := false
    cancelAt3 := false
    loadResult := .ok ()
    transcribeResult := .ok {} }

/-- C8 counterexample: when the job record was removed from the store
before the worker ran, `_run_transcription` returns at line 192 — before
the `try`/`finally` — so the temporary input file is never deleted even
though it lies in the temp area and exists. -/
theorem c8_counterexample :
    (run_transcription [] "j" "/tmp/a.wav" envPlain none 0 fsTemp false).removeAttempts
        = 0 ∧
    fsTemp.tempDir.data.isPrefixOf "/tmp/a.wav".data = true ∧
    fsTemp.files.contains "/tmp/a.wav" = true ∧
    (run_transcription [] "j" "/tmp/a.wav" envPlain none 0 fsTemp false).fs.files.contains
        "/tmp/a.wav" = true := by
  refine ⟨rfl, by decide, by decide, by decide⟩

/-- C8 (amended): provided the worker still finds the job record in the
store, the runner calls `os.remove` on the temp file exactly once whatever
the outcome of the run, and a failing removal is swallowed: the trace of
job states is identical whether the removal succeeds or fails, and a
failed removal leaves the filesystem unchanged. -/
theorem c8_temp_cleanup (s : JobStore) (id path : String) (env : RunEnv)
    (hint : Option String) (now : Rat) (fs : FS) (j0 : TranscriptionJob)
    (hjob : get_job s id = some j0)
    (hpfx : fs.tempDir.data.isPrefixOf path.data = true)
    (hex : fs.files.contains path = true) :
    (∀ rf : Bool,
        (run_transcription s id path env hint now fs rf).removeAttempts = 1) ∧
    (run_transcription s id path env hint now fs true).trace
        = (run_transcription s id path env hint now fs false).trace ∧
    (run_transcription s id path env hint now fs true).fs = fs := by
  have hmem : path ∈ fs.files := by simpa using hex
  refine ⟨?_, ?_, ?_⟩
  · intro rf
    cases rf <;> simp [run_transcription, hjob, cleanupTempFile, hpfx, hmem]
  · simp [run_transcription, hjob, cleanupTempFile, hpfx, hmem]
  · simp [run_transcription, hjob, cleanupTempFile, hpfx, hmem]

/-- C8 witness: with the record present, the runner removes the temp file
exactly once, and a failing removal changes neither the trace nor the
filesystem. -/
theorem c8_temp_cleanup_witness :
    (run_transcription [("j", jPending)] "j" "/tmp/a.wav" envPlain none 0 fsTemp
        true).removeAttempts = 1 ∧
    (run_transcription [("j", jPending)] "j" "/tmp/a.wav" envPlain none 0 fsTemp
        false).removeAttempts = 1 ∧
    (run_transcription [("j", jPending)] "j" "/tmp/a.wav" envPlain none 0 fsTemp
        true).trace
      = (run_transcription [("j", jPending)] "j" "/tmp/a.wav" envPlain none 0 fsTemp
        false).trace ∧
    (run_transcription [("j", jPending)] "j" "/tmp/a.wav" envPlain none 0 fsTemp
        true).fs = fsTemp := by
  have h := c8_temp_cleanup [("j", jPending)] "j" "/tmp/a.wav" envPlain none 0 fsTemp
    jPending (by decide) (by decide) (by decide)
  exact ⟨h.1 true, h.1 false, h.2.1, h.2.2⟩
